import Mathlib

/-!
Verification of the AWS MCP server's provider-access and request-handler
layers (repository `dhakalu/aws-mcp`), as a shallow embedding in Lean 4.

Provider responses are Python dictionaries; a key that may be absent is
modelled as an `Option` field (`none` = key absent).  A required key access
`d["k"]` is modelled by `req`, which fails with a `KeyError`-like value when
the key is absent; `l[0]` is modelled by `idx0`, failing with an
`IndexError`-like value on the empty list.  `datetime` values are modelled by
their `isoformat()` string, since the code only ever converts them with
`isoformat()`.  Fallible code returns `Except PyError`.
-/

namespace AwsMcp

/-- The exception values the embedded code can raise or receive from the
provider client: `KeyError` (missing dictionary key), `IndexError` (list
index out of range), `ValueError` (the not-found signal raised in
`describe_instance`), and any failure raised by the boto3 client itself
(`ClientError`, credential errors, ...), carried with its message text. -/
inductive PyError where
  | keyError : String → PyError
  | indexError : PyError
  | valueError : String → PyError
  | clientError : String → PyError
deriving DecidableEq

/-- `str(e)` for the modelled exceptions.  `str(KeyError('k'))` is `"'k'"`;
`str(IndexError())` for `l[0]` on an empty list is
`"list index out of range"`; for the others the message itself. -/
def PyError.text : PyError → String
  | .keyError k => "\x27" ++ k ++ "\x27"
  | .indexError => "list index out of range"
  | .valueError m => m
  | .clientError m => m

/-- Whether the error is the NotFound-kind signal (`ValueError`). -/
def PyError.isNotFound : PyError → Bool
  | .valueError _ => true
  | _ => false

/-- Required dictionary access `d["k"]`: `KeyError` when the key is absent. -/
def req (k : String) : Option α → Except PyError α
  | some v => Except.ok v
  | none => Except.error (PyError.keyError k)

/-- List indexing `l[0]`: `IndexError` on the empty list. -/
def idx0 : List α → Except PyError α
  | [] => Except.error PyError.indexError
  | x :: _ => Except.ok x

/-- The Python `for`-loop that maps a fallible body over a list, stopping at
the first failure (used for security-group names and bucket records). -/
def mapExcept (f : α → Except PyError β) : List α → Except PyError (List β)
  | [] => Except.ok []
  | x :: xs => do
    let y ← f x
    let ys ← mapExcept f xs
    Except.ok (y :: ys)

/-- Python truthiness of an optional string: `None` and `""` are falsy. -/
def truthy : Option String → Bool
  | some s => s != ""
  | none => false

/-- One element of an instance's `Tags` list: `{"Key": ..., "Value": ...}`. -/
structure Tag where
  Key : String
  Value : String
deriving DecidableEq

/-- One equality filter passed to `describe_instances`:
`{"Name": ..., "Values": [...]}`. -/
structure Filter where
  Name : String
  Values : List String
deriving DecidableEq

/-- A raw EC2 instance record as returned by the provider.  Every field the
code reads is present, with `Option` marking keys that may be absent.
`StateName` stands for `instance["State"]["Name"]`, `AvailabilityZone` for
`instance["Placement"]["AvailabilityZone"]` (the nesting is collapsed since
the code reads nothing else from those sub-dictionaries), `StateReason` is
`Option (Option String)`: the outer layer is presence of the `"StateReason"`
key, the inner one presence of its `"Message"` key.  `SecurityGroups` is a
list of the records' optional `"GroupName"` values. -/
structure RawInstance where
  InstanceId : Option String
  InstanceType : Option String
  StateName : Option String
  StateReason : Option (Option String)
  LaunchTime : Option String
  Platform : Option String
  Architecture : Option String
  AvailabilityZone : Option String
  SecurityGroups : Option (List (Option String))
  Tags : Option (List Tag)
  VpcId : Option String
  SubnetId : Option String
  KeyName : Option String
  PublicIpAddress : Option String
  PrivateIpAddress : Option String
deriving DecidableEq

/-- One reservation of a `describe_instances` response. -/
structure Reservation where
  Instances : Option (List RawInstance)
deriving DecidableEq

/-- A `describe_instances` response. -/
structure DescribeResponse where
  Reservations : Option (List Reservation)
deriving DecidableEq

/-- The `InstanceInfo` summary built by `EC2Service.list_instances`.
`none` in an optional field means the key is structurally absent. -/
structure InstanceInfo where
  InstanceId : String
  InstanceType : String
  State : String
  LaunchTime : String
  AvailabilityZone : String
  Name : String
  PublicIP : Option String
  PrivateIP : Option String
deriving DecidableEq

/-- `InstanceListResponse`: the result of `EC2Service.list_instances`. -/
structure InstanceListResponse where
  Instances : List InstanceInfo
  Count : Nat
deriving DecidableEq

/-- The `InstanceDetailInfo` record built by `EC2Service.describe_instance`.
`none` in an optional field means the key is structurally absent. -/
structure InstanceDetailInfo where
  InstanceId : String
  InstanceType : String
  State : String
  StateReason : String
  LaunchTime : String
  Platform : String
  Architecture : String
  AvailabilityZone : String
  SecurityGroups : List String
  VpcId : Option String
  SubnetId : Option String
  KeyName : Option String
  Name : Option String
  PublicIP : Option String
  PrivateIP : Option String
deriving DecidableEq

/-- The tag-scanning loop shared by both EC2 operations: the value of the
first tag whose key equals `"Name"`, if any. -/
def nameTag (tags : List Tag) : Option String :=
  (tags.find? fun t => t.Key == "Name").map Tag.Value

/-- `instance.get("StateReason", {}).get("Message", "N/A")`. -/
def stateReasonText : Option (Option String) → String
  | some (some m) => m
  | _ => "N/A"

/-- The filter list built at the top of `EC2Service.list_instances`
(`service/ec2.py` lines 98-100). -/
def ec2Filters (state : String) : List Filter :=
  if state != "all" then [{ Name := "instance-state-name", Values := [state] }] else []

/-- The per-instance summary construction in the body of the nested loops of
`EC2Service.list_instances` (`service/ec2.py` lines 107-128), with required
key accesses in source order. -/
def toInstanceInfo (inst : RawInstance) : Except PyError InstanceInfo := do
  let iid ← req "InstanceId" inst.InstanceId
  let itype ← req "InstanceType" inst.InstanceType
  let st ← req "State" inst.StateName
  let lt ← req "LaunchTime" inst.LaunchTime
  let az ← req "Placement" inst.AvailabilityZone
  Except.ok
    { InstanceId := iid
      InstanceType := itype
      State := st
      LaunchTime := lt
      AvailabilityZone := az
      Name := (nameTag (inst.Tags.getD [])).getD "N/A"
      PublicIP := inst.PublicIpAddress
      PrivateIP := inst.PrivateIpAddress }

/-- The inner loop of `EC2Service.list_instances` over one reservation:
`reservation["Instances"]` then the per-instance mapping. -/
def instancesOfReservation (r : Reservation) : Except PyError (List InstanceInfo) := do
  let raw ← req "Instances" r.Instances
  mapExcept toInstanceInfo raw

/-- Everything `EC2Service.list_instances` does after the provider call
returns (`service/ec2.py` lines 102-134): read `response["Reservations"]`,
flatten the reservation nesting in order, and pair the list with its
length. -/
def listBody (resp : Except PyError DescribeResponse) : Except PyError InstanceListResponse := do
  let response ← resp
  let reservations ← req "Reservations" response.Reservations
  let nested ← mapExcept instancesOfReservation reservations
  let instances := nested.flatten
  Except.ok { Instances := instances, Count := instances.length }

/-- `EC2Service.list_instances` (`service/ec2.py` lines 82-134): the client
is abstracted as a function from the filter list it is invoked with to its
outcome. -/
def EC2Service.list_instances
    (client : List Filter → Except PyError DescribeResponse) (state : String) :
    Except PyError InstanceListResponse :=
  listBody (client (ec2Filters state))

/-- The per-instance detail construction of `EC2Service.describe_instance`
(`service/ec2.py` lines 158-192), with accesses in source order. -/
def toInstanceDetail (inst : RawInstance) : Except PyError InstanceDetailInfo := do
  let iid ← req "InstanceId" inst.InstanceId
  let itype ← req "InstanceType" inst.InstanceType
  let st ← req "State" inst.StateName
  let lt ← req "LaunchTime" inst.LaunchTime
  let arch ← req "Architecture" inst.Architecture
  let az ← req "Placement" inst.AvailabilityZone
  let sgRecords ← req "SecurityGroups" inst.SecurityGroups
  let sgs ← mapExcept (req "GroupName") sgRecords
  let name := nameTag (inst.Tags.getD [])
  Except.ok
    { InstanceId := iid
      InstanceType := itype
      State := st
      StateReason := stateReasonText inst.StateReason
      LaunchTime := lt
      Platform := inst.Platform.getD "Linux/Unix"
      Architecture := arch
      AvailabilityZone := az
      SecurityGroups := sgs
      VpcId := if truthy inst.VpcId then inst.VpcId else none
      SubnetId := if truthy inst.SubnetId then inst.SubnetId else none
      KeyName := if truthy inst.KeyName then inst.KeyName else none
      Name := if truthy name then name else none
      PublicIP := inst.PublicIpAddress
      PrivateIP := inst.PrivateIpAddress }

/-- Everything `EC2Service.describe_instance` does after the provider call
returns (`service/ec2.py` lines 153-195): raise `ValueError` when the
reservation list is empty (Python truthiness of the list), otherwise index
`[0]["Instances"][0]` and map the record. -/
def describeBody (instance_id : String) (response : DescribeResponse) :
    Except PyError InstanceDetailInfo := do
  let reservations ← req "Reservations" response.Reservations
  if reservations.isEmpty then
    Except.error (PyError.valueError ("Instance " ++ instance_id ++ " not found"))
  else do
    let r0 ← idx0 reservations
    let raw ← req "Instances" r0.Instances
    let inst ← idx0 raw
    toInstanceDetail inst

/-- `EC2Service.describe_instance` (`service/ec2.py` lines 136-195): the
client is abstracted as a function from the requested instance id to the
outcome of `describe_instances(InstanceIds=[instance_id])`. -/
def EC2Service.describe_instance
    (client : String → Except PyError DescribeResponse) (instance_id : String) :
    Except PyError InstanceDetailInfo := do
  let response ← client instance_id
  describeBody instance_id response

/-- A raw S3 bucket record. -/
structure RawBucket where
  Name : Option String
  CreationDate : Option String
deriving DecidableEq

/-- A `list_buckets` provider response; the `"Buckets"` key may be absent. -/
structure S3Response where
  Buckets : Option (List RawBucket)
deriving DecidableEq

/-- The `BucketInfo` record built by `S3Service.list_buckets`. -/
structure BucketInfo where
  Name : String
  CreationDate : String
deriving DecidableEq

/-- `BucketListResponse`: the result of `S3Service.list_buckets`. -/
structure BucketListResponse where
  Buckets : List BucketInfo
  Count : Nat
deriving DecidableEq

/-- The per-bucket mapping in `S3Service.list_buckets`
(`service/s3.py` lines 72-77). -/
def toBucketInfo (bucket : RawBucket) : Except PyError BucketInfo := do
  let nm ← req "Name" bucket.Name
  let cd ← req "CreationDate" bucket.CreationDate
  Except.ok { Name := nm, CreationDate := cd }

/-- `S3Service.list_buckets` (`service/s3.py` lines 56-81): a single client
call, `response.get("Buckets", [])`, the per-bucket mapping, and the
count. -/
def S3Service.list_buckets (client : Unit → Except PyError S3Response) :
    Except PyError BucketListResponse := do
  let response ← client ()
  let buckets ← mapExcept toBucketInfo (response.Buckets.getD [])
  Except.ok { Buckets := buckets, Count := buckets.length }

/-- The envelope returned by the `list_ec2_instances` handler
(`{Error, Message?, Instances, Count, Region, StateFilter}`, spec section 6);
the mapping is modelled before its JSON serialization. -/
structure ListEnvelope where
  Error : Bool
  Message : Option String
  Instances : List InstanceInfo
  Count : Nat
  Region : String
  StateFilter : String
deriving DecidableEq

/-- The envelope returned by the `describe_ec2_instance` handler
(`{Error, Message, Instance?, InstanceId, Region}`, spec section 6). -/
structure DescribeEnvelope where
  Error : Bool
  Message : String
  Instance : Option InstanceDetailInfo
  InstanceId : String
  Region : String
deriving DecidableEq

/-- The envelope returned by the `list_s3_buckets` handler
(`{Error, Message?, Buckets, Count, Region}`, spec section 6). -/
structure BucketsEnvelope where
  Error : Bool
  Message : Option String
  Buckets : List BucketInfo
  Count : Nat
  Region : String
deriving DecidableEq

/-- Modelled from the spec: the module-level handler function
`list_ec2_instances(region, state)` of `aws_mcp.handlers.ec2` is imported by
the package but its body is not present under `src/`; this follows spec
sections 4.2 and 6 (catch everything; empty list yields error=false with an
explanatory message and count=0; other success echoes payload and count; any
failure yields error=true with the fixed prefix plus the failure text) with
the message texts its unit tests assert.  Everything inside the handler's
`try` block - service construction and the service call - is abstracted as
`svc`. -/
def list_ec2_instances (svc : String → Except PyError InstanceListResponse)
    (region : String) (state : String) : ListEnvelope :=
  match svc state with
  | Except.ok r =>
    if r.Instances.isEmpty then
      { Error := false
        Message := some ("No EC2 instances found in " ++ region ++ " with state \x27"
          ++ state ++ "\x27")
        Instances := []
        Count := 0
        Region := region
        StateFilter := state }
    else
      { Error := false
        Message := none
        Instances := r.Instances
        Count := r.Count
        Region := region
        StateFilter := state }
  | Except.error e =>
    { Error := true
      Message := some ("Error listing EC2 instances: " ++ e.text)
      Instances := []
      Count := 0
      Region := region
      StateFilter := state }

/-- Modelled from the spec: the module-level handler function
`describe_ec2_instance(region, instance_id)` of `aws_mcp.handlers.ec2` is
imported by the package but its body is not present under `src/`; this
follows spec sections 4.2 and 6 (a NotFound-kind failure yields error=true
with the failure's own text and a null Instance; any other failure yields
error=true with the fixed prefix plus the failure text; success wraps the
detail) with the message texts its unit tests assert. -/
def describe_ec2_instance (svc : String → Except PyError InstanceDetailInfo)
    (region : String) (instance_id : String) : DescribeEnvelope :=
  match svc instance_id with
  | Except.ok detail =>
    { Error := false
      Message := "Successfully retrieved details for instance " ++ instance_id
      Instance := some detail
      InstanceId := instance_id
      Region := region }
  | Except.error (PyError.valueError m) =>
    { Error := true
      Message := m
      Instance := none
      InstanceId := instance_id
      Region := region }
  | Except.error e =>
    { Error := true
      Message := "Error describing instance " ++ instance_id ++ ": " ++ e.text
      Instance := none
      InstanceId := instance_id
      Region := region }

/-- Modelled from the spec: the module-level handler function
`list_s3_buckets(region)` of `aws_mcp.handlers.s3`'s final variant is
exercised only by its unit tests and is not present under `src/`; this
follows spec sections 4.2 and 6 with the message texts its unit tests
assert. -/
def list_s3_buckets (svc : Unit → Except PyError BucketListResponse)
    (region : String) : BucketsEnvelope :=
  match svc () with
  | Except.ok r =>
    if r.Buckets.isEmpty then
      { Error := false
        Message := some ("No S3 buckets found in " ++ region)
        Buckets := []
        Count := 0
        Region := region }
    else
      { Error := false
        Message := none
        Buckets := r.Buckets
        Count := r.Count
        Region := region }
  | Except.error e =>
    { Error := true
      Message := some ("Error listing S3 buckets: " ++ e.text)
      Buckets := []
      Count := 0
      Region := region }

/-! ## Helper lemmas -/

theorem ok_bind {α β : Type} (a : α) (f : α → Except PyError β) :
    (Except.ok a >>= f) = f a := rfl

theorem error_bind {α β : Type} (e : PyError) (f : α → Except PyError β) :
    ((Except.error e : Except PyError α) >>= f) = Except.error e := rfl

theorem req_some {α : Type} (k : String) (v : α) : req k (some v) = Except.ok v := rfl

theorem req_none {α : Type} (k : String) :
    req k (none : Option α) = Except.error (PyError.keyError k) := rfl

/-- Inverting a successful bind in the `Except` monad. -/
theorem bind_ok_inv {α β : Type} {x : Except PyError α} {f : α → Except PyError β} {b : β}
    (h : (x >>= f) = Except.ok b) : ∃ a, x = Except.ok a ∧ f a = Except.ok b := by
  cases x with
  | error e => exact absurd h (by simp [error_bind])
  | ok a => exact ⟨a, rfl, h⟩

/-- Inverting a successful `req`. -/
theorem req_ok_inv {α : Type} {k : String} {o : Option α} {a : α}
    (h : req k o = Except.ok a) : o = some a := by
  cases o with
  | none => exact absurd h (by simp [req_none])
  | some v => simpa [req_some] using h

/-- A successful `mapExcept` preserves the length of the list. -/
theorem mapExcept_ok_length {α β : Type} {f : α → Except PyError β}
    {l : List α} {l' : List β} (h : mapExcept f l = Except.ok l') :
    l'.length = l.length := by
  induction l generalizing l' with
  | nil => simp [mapExcept] at h; simp [← h]
  | cons x xs ih =>
    unfold mapExcept at h
    obtain ⟨y, hy, h⟩ := bind_ok_inv h
    obtain ⟨ys, hys, h⟩ := bind_ok_inv h
    cases h
    simp [ih hys]

/-- A successful summary mapping copies the address fields as they are in the
record and resolves the display name from the first `"Name"` tag. -/
theorem toInstanceInfo_ok {inst : RawInstance} {info : InstanceInfo}
    (h : toInstanceInfo inst = Except.ok info) :
    info.Name = (nameTag (inst.Tags.getD [])).getD "N/A"
    ∧ info.PublicIP = inst.PublicIpAddress
    ∧ info.PrivateIP = inst.PrivateIpAddress := by
  unfold toInstanceInfo at h
  obtain ⟨iid, h1, h⟩ := bind_ok_inv h
  obtain ⟨itype, h2, h⟩ := bind_ok_inv h
  obtain ⟨st, h3, h⟩ := bind_ok_inv h
  obtain ⟨lt, h4, h⟩ := bind_ok_inv h
  obtain ⟨az, h5, h⟩ := bind_ok_inv h
  cases h
  exact ⟨rfl, rfl, rfl⟩

/-- A successful detail mapping: the defaulted fields, the truthiness-guarded
optional fields, and the presence-copied address fields. -/
theorem toInstanceDetail_ok {inst : RawInstance} {d : InstanceDetailInfo}
    (h : toInstanceDetail inst = Except.ok d) :
    d.StateReason = stateReasonText inst.StateReason
    ∧ d.Platform = inst.Platform.getD "Linux/Unix"
    ∧ d.VpcId = (if truthy inst.VpcId then inst.VpcId else none)
    ∧ d.SubnetId = (if truthy inst.SubnetId then inst.SubnetId else none)
    ∧ d.KeyName = (if truthy inst.KeyName then inst.KeyName else none)
    ∧ d.Name = (if truthy (nameTag (inst.Tags.getD [])) then nameTag (inst.Tags.getD [])
        else none)
    ∧ d.PublicIP = inst.PublicIpAddress
    ∧ d.PrivateIP = inst.PrivateIpAddress := by
  unfold toInstanceDetail at h
  obtain ⟨iid, h1, h⟩ := bind_ok_inv h
  obtain ⟨itype, h2, h⟩ := bind_ok_inv h
  obtain ⟨st, h3, h⟩ := bind_ok_inv h
  obtain ⟨lt, h4, h⟩ := bind_ok_inv h
  obtain ⟨arch, h5, h⟩ := bind_ok_inv h
  obtain ⟨az, h6, h⟩ := bind_ok_inv h
  obtain ⟨sgRecords, h7, h⟩ := bind_ok_inv h
  obtain ⟨sgs, h8, h⟩ := bind_ok_inv h
  cases h
  exact ⟨rfl, rfl, rfl, rfl, rfl, rfl, rfl, rfl⟩

/-- Mapping `req k` over a list either succeeds or fails with that key's
`KeyError`. -/
theorem mapExcept_req_shape (k : String) (l : List (Option String)) :
    (∃ v, mapExcept (req k) l = Except.ok v)
    ∨ mapExcept (req k) l = Except.error (PyError.keyError k) := by
  induction l with
  | nil => exact Or.inl ⟨[], rfl⟩
  | cons x xs ih =>
    cases x with
    | none => exact Or.inr (by simp [mapExcept, req_none, error_bind])
    | some v =>
      rcases ih with ⟨vs, hvs⟩ | hvs
      · exact Or.inl ⟨v :: vs, by simp [mapExcept, req_some, ok_bind, hvs]⟩
      · exact Or.inr (by simp [mapExcept, req_some, ok_bind, hvs, error_bind])

/-- The detail mapping never raises the NotFound-kind `ValueError`: its only
failures are `KeyError`s for missing required keys. -/
theorem toInstanceDetail_ne_valueError (inst : RawInstance) (m : String) :
    toInstanceDetail inst ≠ Except.error (PyError.valueError m) := by
  intro h
  unfold toInstanceDetail at h
  cases hI : inst.InstanceId with
  | none => simp [hI, req_none, error_bind] at h
  | some iid =>
  simp only [hI, req_some, ok_bind] at h
  cases hT : inst.InstanceType with
  | none => simp [hT, req_none, error_bind] at h
  | some itype =>
  simp only [hT, req_some, ok_bind] at h
  cases hS : inst.StateName with
  | none => simp [hS, req_none, error_bind] at h
  | some st =>
  simp only [hS, req_some, ok_bind] at h
  cases hL : inst.LaunchTime with
  | none => simp [hL, req_none, error_bind] at h
  | some lt =>
  simp only [hL, req_some, ok_bind] at h
  cases hA : inst.Architecture with
  | none => simp [hA, req_none, error_bind] at h
  | some arch =>
  simp only [hA, req_some, ok_bind] at h
  cases hZ : inst.AvailabilityZone with
  | none => simp [hZ, req_none, error_bind] at h
  | some az =>
  simp only [hZ, req_some, ok_bind] at h
  cases hG : inst.SecurityGroups with
  | none => simp [hG, req_none, error_bind] at h
  | some sgRecords =>
  simp only [hG, req_some, ok_bind] at h
  rcases mapExcept_req_shape "GroupName" sgRecords with ⟨v, hv⟩ | hv
  · simp [hv, ok_bind] at h
  · simp [hv, error_bind] at h

/-- `find?` returns the first element satisfying the predicate. -/
theorem find?_first {α : Type} (p : α → Bool) (pre : List α) (t : α) (post : List α)
    (hpre : ∀ x ∈ pre, p x = false) (ht : p t = true) :
    List.find? p (pre ++ t :: post) = some t := by
  induction pre with
  | nil => simp [List.find?, ht]
  | cons a as ih =>
    have ha : p a = false := hpre a (List.mem_cons_self a as)
    simp only [List.cons_append, List.find?, ha]
    exact ih fun x hx => hpre x (List.mem_cons_of_mem a hx)

/-- Presence of a truthiness-guarded optional field is equivalent to the
record carrying a non-empty value, and when present the value is copied. -/
theorem truthy_guard_ne_none (o : Option String) :
    ((if truthy o then o else none) ≠ none ↔ ∃ s, o = some s ∧ s ≠ "")
    ∧ ((if truthy o then o else none) ≠ none → (if truthy o then o else none) = o) := by
  cases o with
  | none => simp [truthy]
  | some s =>
    by_cases hs : s = ""
    · subst hs; simp [truthy]
    · simp [truthy, hs]

/-! ## Sample data used by the witnesses -/

/-- A tagged running instance (the round-trip record of the tests). -/
def sampleTaggedInstance : RawInstance :=
  { InstanceId := some "i-1111111111111111"
    InstanceType := some "t2.micro"
    StateName := some "running"
    StateReason := some (some "running")
    LaunchTime := some "2024-01-01T12:00:00"
    Platform := none
    Architecture := some "x86_64"
    AvailabilityZone := some "us-east-1a"
    SecurityGroups := some [some "default"]
    Tags := some [{ Key := "Name", Value := "instance-1" }]
    VpcId := none
    SubnetId := none
    KeyName := none
    PublicIpAddress := none
    PrivateIpAddress := none }

/-- The summary `list_instances` builds for `sampleTaggedInstance`. -/
def sampleTaggedSummary : InstanceInfo :=
  { InstanceId := "i-1111111111111111"
    InstanceType := "t2.micro"
    State := "running"
    LaunchTime := "2024-01-01T12:00:00"
    AvailabilityZone := "us-east-1a"
    Name := "instance-1"
    PublicIP := none
    PrivateIP := none }

/-- A stopped instance with no tags, an empty state reason and no platform. -/
def sampleUntaggedInstance : RawInstance :=
  { InstanceId := some "i-2222222222222222"
    InstanceType := some "t3.small"
    StateName := some "stopped"
    StateReason := some none
    LaunchTime := some "2024-01-01T12:00:00"
    Platform := none
    Architecture := some "x86_64"
    AvailabilityZone := some "us-east-1b"
    SecurityGroups := some []
    Tags := some []
    VpcId := none
    SubnetId := none
    KeyName := none
    PublicIpAddress := none
    PrivateIpAddress := none }

/-- The summary `list_instances` builds for `sampleUntaggedInstance`. -/
def sampleUntaggedSummary : InstanceInfo :=
  { InstanceId := "i-2222222222222222"
    InstanceType := "t3.small"
    State := "stopped"
    LaunchTime := "2024-01-01T12:00:00"
    AvailabilityZone := "us-east-1b"
    Name := "N/A"
    PublicIP := none
    PrivateIP := none }

/-- The detail `describe_instance` builds for `sampleUntaggedInstance`. -/
def sampleMinimalDetail : InstanceDetailInfo :=
  { InstanceId := "i-2222222222222222"
    InstanceType := "t3.small"
    State := "stopped"
    StateReason := "N/A"
    LaunchTime := "2024-01-01T12:00:00"
    Platform := "Linux/Unix"
    Architecture := "x86_64"
    AvailabilityZone := "us-east-1b"
    SecurityGroups := []
    VpcId := none
    SubnetId := none
    KeyName := none
    Name := none
    PublicIP := none
    PrivateIP := none }

/-- A client whose describe response has no reservations, whatever the
filters. -/
def emptyFilterClient : List Filter → Except PyError DescribeResponse :=
  fun _ => Except.ok { Reservations := some [] }

/-- A client whose describe-by-id response has zero reservations. -/
def emptyDescribeClient : String → Except PyError DescribeResponse :=
  fun _ => Except.ok { Reservations := some [] }

/-- A client returning the two sample instances in two reservations. -/
def sampleListClient : List Filter → Except PyError DescribeResponse :=
  fun _ => Except.ok
    { Reservations := some
        [{ Instances := some [sampleTaggedInstance] },
         { Instances := some [sampleUntaggedInstance] }] }

/-! ## The claims -/

/-- Claim C4: for every state argument other than `"all"`, `list_instances`
invokes the provider's describe call with exactly one equality filter on
`instance-state-name` whose value equals the requested state; for `"all"`
it invokes the provider with zero filters. -/
theorem C4_filter_construction (state : String)
    (client : List Filter → Except PyError DescribeResponse) :
    (state ≠ "all" →
      ec2Filters state = [{ Name := "instance-state-name", Values := [state] }]
      ∧ EC2Service.list_instances client state
        = listBody (client [{ Name := "instance-state-name", Values := [state] }]))
    ∧ (state = "all" →
      ec2Filters state = []
      ∧ EC2Service.list_instances client state = listBody (client [])) := by
  constructor
  · intro h
    have hf : ec2Filters state = [{ Name := "instance-state-name", Values := [state] }] := by
      simp [ec2Filters, h]
    exact ⟨hf, by rw [EC2Service.list_instances, hf]⟩
  · intro h
    subst h
    have hf : ec2Filters "all" = [] := by simp [ec2Filters]
    exact ⟨hf, by rw [EC2Service.list_instances, hf]⟩

/-- Witness for C4 at state `"running"`. -/
theorem C4_filter_construction_witness :
    ec2Filters "running" = [{ Name := "instance-state-name", Values := ["running"] }]
    ∧ EC2Service.list_instances emptyFilterClient "running"
      = listBody (emptyFilterClient [{ Name := "instance-state-name", Values := ["running"] }]) :=
  (C4_filter_construction "running" emptyFilterClient).1 (by decide)

/-- Claim C5: the display name in an `InstanceSummary` is the value of the
first tag whose key equals `"Name"`, and the sentinel `"N/A"` when no such
tag exists. -/
theorem C5_first_name_tag {inst : RawInstance} {info : InstanceInfo}
    (h : toInstanceInfo inst = Except.ok info) :
    ((∀ t ∈ inst.Tags.getD [], t.Key ≠ "Name") → info.Name = "N/A")
    ∧ (∀ pre t post, inst.Tags.getD [] = pre ++ t :: post → t.Key = "Name" →
        (∀ t' ∈ pre, t'.Key ≠ "Name") → info.Name = t.Value) := by
  obtain ⟨hname, -, -⟩ := toInstanceInfo_ok h
  constructor
  · intro hnone
    have hfind : List.find? (fun t => t.Key == "Name") (inst.Tags.getD []) = none := by
      rw [List.find?_eq_none]
      intro x hx
      simp [hnone x hx]
    simp [hname, nameTag, hfind]
  · intro pre t post heq ht hpre
    have hfind : List.find? (fun t => t.Key == "Name") (inst.Tags.getD []) = some t := by
      rw [heq]
      apply find?_first
      · intro x hx; simp [hpre x hx]
      · simp [ht]
    simp [hname, nameTag, hfind]

/-- Witness for C5: the tagged sample resolves to its tag's value. -/
theorem C5_first_name_tag_witness :
    sampleTaggedSummary.Name = Tag.Value { Key := "Name", Value := "instance-1" } :=
  (@C5_first_name_tag sampleTaggedInstance sampleTaggedSummary rfl).2
    [] { Key := "Name", Value := "instance-1" } [] rfl rfl (by simp)

/-- Claim C6: a record whose state reason carries no message text yields
`StateReason = "N/A"`, and a record with unset platform yields
`Platform = "Linux/Unix"` in the detail. -/
theorem C6_detail_defaults {inst : RawInstance} {d : InstanceDetailInfo}
    (h : toInstanceDetail inst = Except.ok d) :
    (inst.StateReason = some none → d.StateReason = "N/A")
    ∧ (inst.StateReason = none → d.StateReason = "N/A")
    ∧ (inst.Platform = none → d.Platform = "Linux/Unix") := by
  obtain ⟨hsr, hplat, -⟩ := toInstanceDetail_ok h
  refine ⟨fun h' => ?_, fun h' => ?_, fun h' => ?_⟩
  · simp [hsr, h', stateReasonText]
  · simp [hsr, h', stateReasonText]
  · simp [hplat, h']

/-- Witness for C6 at the minimal sample record. -/
theorem C6_detail_defaults_witness :
    sampleMinimalDetail.StateReason = "N/A" ∧ sampleMinimalDetail.Platform = "Linux/Unix" :=
  ⟨(@C6_detail_defaults sampleUntaggedInstance sampleMinimalDetail rfl).1 rfl,
   (@C6_detail_defaults sampleUntaggedInstance sampleMinimalDetail rfl).2.2 rfl⟩

/-- Claim C7: `list_instances` flattens the reservation-to-instance nesting
into one sequence in provider-returned order (reservations in order, then
instances within each reservation, no re-sorting), and the returned `Count`
equals the length of that sequence. -/
theorem C7_flattening (client : List Filter → Except PyError DescribeResponse)
    (state : String) {resp : DescribeResponse} {rs : List Reservation}
    {ls : List (List InstanceInfo)}
    (h1 : client (ec2Filters state) = Except.ok resp)
    (h2 : resp.Reservations = some rs)
    (h3 : mapExcept instancesOfReservation rs = Except.ok ls) :
    EC2Service.list_instances client state
      = Except.ok { Instances := ls.flatten, Count := ls.flatten.length }
    ∧ (∀ r, EC2Service.list_instances client state = Except.ok r →
        r.Count = r.Instances.length) := by
  constructor
  · unfold EC2Service.list_instances listBody
    simp [h1, ok_bind, h2, req_some, h3]
  · intro r hr
    unfold EC2Service.list_instances listBody at hr
    obtain ⟨respb, a1, hr⟩ := bind_ok_inv hr
    obtain ⟨rsb, a2, hr⟩ := bind_ok_inv hr
    obtain ⟨lsb, a3, hr⟩ := bind_ok_inv hr
    cases hr
    rfl

/-- Witness for C7: two reservations flatten in order with `Count = 2`. -/
theorem C7_flattening_witness :
    EC2Service.list_instances sampleListClient "all"
      = Except.ok { Instances := [sampleTaggedSummary, sampleUntaggedSummary], Count := 2 } :=
  (@C7_flattening sampleListClient "all"
    { Reservations := some
        [{ Instances := some [sampleTaggedInstance] },
         { Instances := some [sampleUntaggedInstance] }] }
    [{ Instances := some [sampleTaggedInstance] },
     { Instances := some [sampleUntaggedInstance] }]
    [[sampleTaggedSummary], [sampleUntaggedSummary]] rfl rfl rfl).1

/-- A service failing with the not-found signal the repository's
`describe_instance` raises. -/
def notFoundSvc : String → Except PyError InstanceDetailInfo :=
  fun _ => Except.error (PyError.valueError "Instance i-404 not found")

/-- Counterexample to claim C1: the NotFound-kind failure raised by the
layer below reaches the describe handler's envelope as the failure's own
text, not as the fixed operation-specific prefix followed by that text. -/
theorem C1_counterexample :
    (describe_ec2_instance notFoundSvc "us-east-1" "i-404").Error = true
    ∧ (describe_ec2_instance notFoundSvc "us-east-1" "i-404").Message
      = "Instance i-404 not found"
    ∧ (describe_ec2_instance notFoundSvc "us-east-1" "i-404").Message
      ≠ "Error describing instance i-404: "
        ++ (PyError.valueError "Instance i-404 not found").text := by
  exact ⟨rfl, rfl, by decide⟩

/-- Claim C1 as amended: every handler turns every failure from the layer
below into an envelope with `Error = true` (nothing propagates); the message
is the fixed operation-specific prefix followed by the original failure text
for both listing operations and for every non-NotFound failure of describe,
while the NotFound-kind failure of describe yields the failure's own text. -/
theorem C1_error_envelopes (region state instance_id m : String) (e : PyError) :
    (list_ec2_instances (fun _ => Except.error e) region state).Error = true
    ∧ (list_ec2_instances (fun _ => Except.error e) region state).Message
      = some ("Error listing EC2 instances: " ++ e.text)
    ∧ (list_s3_buckets (fun _ => Except.error e) region).Error = true
    ∧ (list_s3_buckets (fun _ => Except.error e) region).Message
      = some ("Error listing S3 buckets: " ++ e.text)
    ∧ (describe_ec2_instance (fun _ => Except.error e) region instance_id).Error = true
    ∧ (e.isNotFound = false →
        (describe_ec2_instance (fun _ => Except.error e) region instance_id).Message
          = "Error describing instance " ++ instance_id ++ ": " ++ e.text)
    ∧ (describe_ec2_instance (fun _ => Except.error (PyError.valueError m))
        region instance_id).Message = m := by
  refine ⟨rfl, rfl, rfl, rfl, ?_, ?_, rfl⟩
  · cases e <;> rfl
  · intro h
    cases e <;> first | rfl | simp [PyError.isNotFound] at h

/-- Witness for the amended C1 at a concrete provider failure. -/
theorem C1_error_envelopes_witness :
    (describe_ec2_instance (fun _ => Except.error (PyError.clientError "AWS API Error"))
      "us-east-1" "i-1").Message
    = "Error describing instance " ++ "i-1" ++ ": "
      ++ (PyError.clientError "AWS API Error").text :=
  (C1_error_envelopes "us-east-1" "running" "i-1" "x"
    (PyError.clientError "AWS API Error")).2.2.2.2.2.1 (by decide)

/-- Claim C2: a describe-by-id response with zero reservations makes
`describe_instance` raise a NotFound-kind error whose message contains the
identifier, and the describe handler converts exactly this failure into an
envelope with `Error = true`, a message containing the identifier and the
not-found phrase, and a null `Instance`. -/
theorem C2_not_found (client : String → Except PyError DescribeResponse)
    (region instance_id : String) {resp : DescribeResponse}
    (h1 : client instance_id = Except.ok resp)
    (h2 : resp.Reservations = some []) :
    EC2Service.describe_instance client instance_id
      = Except.error (PyError.valueError ("Instance " ++ instance_id ++ " not found"))
    ∧ (describe_ec2_instance (EC2Service.describe_instance client)
        region instance_id).Error = true
    ∧ (describe_ec2_instance (EC2Service.describe_instance client)
        region instance_id).Message = "Instance " ++ instance_id ++ " not found"
    ∧ (∃ a b, (describe_ec2_instance (EC2Service.describe_instance client)
        region instance_id).Message = a ++ instance_id ++ b)
    ∧ (∃ a b, (describe_ec2_instance (EC2Service.describe_instance client)
        region instance_id).Message = a ++ "not found" ++ b)
    ∧ (describe_ec2_instance (EC2Service.describe_instance client)
        region instance_id).Instance = none := by
  have hsvc : EC2Service.describe_instance client instance_id
      = Except.error (PyError.valueError ("Instance " ++ instance_id ++ " not found")) := by
    unfold EC2Service.describe_instance describeBody
    simp [h1, ok_bind, h2, req_some]
  refine ⟨hsvc, ?_, ?_, ?_, ?_, ?_⟩
  · simp [describe_ec2_instance, hsvc]
  · simp [describe_ec2_instance, hsvc]
  · exact ⟨"Instance ", " not found", by simp [describe_ec2_instance, hsvc]⟩
  · refine ⟨"Instance " ++ instance_id ++ " ", "", ?_⟩
    simp only [describe_ec2_instance, hsvc, String.append_empty]
    rw [String.append_assoc, String.append_assoc]
    rfl
  · simp [describe_ec2_instance, hsvc]

/-- Witness for C2 at a zero-reservation response. -/
theorem C2_not_found_witness :
    EC2Service.describe_instance emptyDescribeClient "i-nonexistent"
      = Except.error (PyError.valueError ("Instance " ++ "i-nonexistent" ++ " not found")) :=
  (C2_not_found emptyDescribeClient "us-east-1" "i-nonexistent" rfl rfl).1

/-- A raw instance record whose public-address key is present with an empty
string as its value. -/
def emptyIpInstance : RawInstance :=
  { InstanceId := some "i-1234567890abcdef0"
    InstanceType := some "t2.micro"
    StateName := some "running"
    StateReason := some (some "ok")
    LaunchTime := some "2024-01-01T12:00:00"
    Platform := none
    Architecture := some "x86_64"
    AvailabilityZone := some "us-east-1a"
    SecurityGroups := some []
    Tags := some []
    VpcId := none
    SubnetId := none
    KeyName := none
    PublicIpAddress := some ""
    PrivateIpAddress := none }

/-- The summary `list_instances` builds for `emptyIpInstance`. -/
def emptyIpSummary : InstanceInfo :=
  { InstanceId := "i-1234567890abcdef0"
    InstanceType := "t2.micro"
    State := "running"
    LaunchTime := "2024-01-01T12:00:00"
    AvailabilityZone := "us-east-1a"
    Name := "N/A"
    PublicIP := some ""
    PrivateIP := none }

/-- Counterexample to claim C3: a record carrying the public-address key
with an empty (hence not non-empty) value still gets the `PublicIP` key in
its summary, so presence is not equivalent to carrying a non-empty value. -/
theorem C3_counterexample :
    toInstanceInfo emptyIpInstance = Except.ok emptyIpSummary
    ∧ emptyIpInstance.PublicIpAddress = some ""
    ∧ emptyIpSummary.PublicIP ≠ none := by
  exact ⟨rfl, rfl, by decide⟩

/-- Claim C3 as amended: the VPC id, subnet id, key-pair name and the
detail's display name are present in the output if and only if the record
carries a non-empty value (and then the value is copied), while the
public/private address fields are copied by key presence alone - a record
lacking those keys omits them from both summary and detail, and a record
carrying them keeps them whatever the value. -/
theorem C3_optional_fields (inst : RawInstance) :
    (∀ info, toInstanceInfo inst = Except.ok info →
      info.PublicIP = inst.PublicIpAddress ∧ info.PrivateIP = inst.PrivateIpAddress)
    ∧ (∀ d, toInstanceDetail inst = Except.ok d →
      d.PublicIP = inst.PublicIpAddress
      ∧ d.PrivateIP = inst.PrivateIpAddress
      ∧ (d.VpcId ≠ none ↔ ∃ s, inst.VpcId = some s ∧ s ≠ "")
      ∧ (d.VpcId ≠ none → d.VpcId = inst.VpcId)
      ∧ (d.SubnetId ≠ none ↔ ∃ s, inst.SubnetId = some s ∧ s ≠ "")
      ∧ (d.SubnetId ≠ none → d.SubnetId = inst.SubnetId)
      ∧ (d.KeyName ≠ none ↔ ∃ s, inst.KeyName = some s ∧ s ≠ "")
      ∧ (d.KeyName ≠ none → d.KeyName = inst.KeyName)
      ∧ (d.Name ≠ none ↔ ∃ s, nameTag (inst.Tags.getD []) = some s ∧ s ≠ "")) := by
  constructor
  · intro info h
    obtain ⟨-, hpub, hpriv⟩ := toInstanceInfo_ok h
    exact ⟨hpub, hpriv⟩
  · intro d h
    obtain ⟨-, -, hvpc, hsub, hkey, hnm, hpub, hpriv⟩ := toInstanceDetail_ok h
    refine ⟨hpub, hpriv, ?_, ?_, ?_, ?_, ?_, ?_, ?_⟩
    · rw [hvpc]; exact (truthy_guard_ne_none inst.VpcId).1
    · rw [hvpc]; exact (truthy_guard_ne_none inst.VpcId).2
    · rw [hsub]; exact (truthy_guard_ne_none inst.SubnetId).1
    · rw [hsub]; exact (truthy_guard_ne_none inst.SubnetId).2
    · rw [hkey]; exact (truthy_guard_ne_none inst.KeyName).1
    · rw [hkey]; exact (truthy_guard_ne_none inst.KeyName).2
    · rw [hnm]; exact (truthy_guard_ne_none (nameTag (inst.Tags.getD []))).1

/-- Witness for the amended C3 at the tagged sample record. -/
theorem C3_optional_fields_witness :
    sampleTaggedSummary.PublicIP = sampleTaggedInstance.PublicIpAddress
    ∧ sampleTaggedSummary.PrivateIP = sampleTaggedInstance.PrivateIpAddress :=
  (C3_optional_fields sampleTaggedInstance).1 sampleTaggedSummary rfl

/-- A service yielding zero instances. -/
def emptyEc2Svc : String → Except PyError InstanceListResponse :=
  fun _ => Except.ok { Instances := [], Count := 0 }

/-- A service yielding zero buckets. -/
def emptyS3Svc : Unit → Except PyError BucketListResponse :=
  fun _ => Except.ok { Buckets := [], Count := 0 }

/-- Claim C8: a listing operation whose provider call succeeds with zero
matching resources yields an envelope with `Error = false`, the explanatory
no-resources message (qualified by the state filter for EC2), an empty list
payload and `Count = 0`. -/
theorem C8_empty_listing (region state : String)
    (ec2svc : String → Except PyError InstanceListResponse)
    (s3svc : Unit → Except PyError BucketListResponse) (n m : Nat)
    (h1 : ec2svc state = Except.ok { Instances := [], Count := n })
    (h2 : s3svc () = Except.ok { Buckets := [], Count := m }) :
    list_ec2_instances ec2svc region state
      = { Error := false
          Message := some ("No EC2 instances found in " ++ region ++ " with state \x27"
            ++ state ++ "\x27")
          Instances := []
          Count := 0
          Region := region
          StateFilter := state }
    ∧ list_s3_buckets s3svc region
      = { Error := false
          Message := some ("No S3 buckets found in " ++ region)
          Buckets := []
          Count := 0
          Region := region } := by
  constructor
  · simp [list_ec2_instances, h1]
  · simp [list_s3_buckets, h2]

/-- Witness for C8 at concrete empty services. -/
theorem C8_empty_listing_witness :
    list_ec2_instances emptyEc2Svc "us-west-2" "running"
      = { Error := false
          Message := some ("No EC2 instances found in " ++ "us-west-2" ++ " with state \x27"
            ++ "running" ++ "\x27")
          Instances := []
          Count := 0
          Region := "us-west-2"
          StateFilter := "running" }
    ∧ list_s3_buckets emptyS3Svc "us-west-2"
      = { Error := false
          Message := some ("No S3 buckets found in " ++ "us-west-2")
          Buckets := []
          Count := 0
          Region := "us-west-2" } :=
  C8_empty_listing "us-west-2" "running" emptyEc2Svc emptyS3Svc 0 0 rfl rfl

/-- A list-buckets client whose response lacks the `"Buckets"` key. -/
def noKeyS3Client : Unit → Except PyError S3Response :=
  fun _ => Except.ok { Buckets := none }

/-- Claim C9: a provider list-buckets response lacking the bucket collection
key yields an empty bucket list with `Count = 0` rather than a failure, and
in general the returned `Count` equals the number of buckets in the
response. -/
theorem C9_missing_buckets_key (client : Unit → Except PyError S3Response)
    {resp : S3Response} (h : client () = Except.ok resp) :
    (resp.Buckets = none →
      S3Service.list_buckets client = Except.ok { Buckets := [], Count := 0 })
    ∧ (∀ r, S3Service.list_buckets client = Except.ok r →
      r.Count = (resp.Buckets.getD []).length ∧ r.Count = r.Buckets.length) := by
  constructor
  · intro hb
    unfold S3Service.list_buckets
    simp [h, ok_bind, hb, mapExcept]
  · intro r hr
    unfold S3Service.list_buckets at hr
    obtain ⟨respb, a1, hr⟩ := bind_ok_inv hr
    rw [h] at a1
    injection a1 with a1
    subst a1
    obtain ⟨bs, a2, hr⟩ := bind_ok_inv hr
    cases hr
    exact ⟨mapExcept_ok_length a2, rfl⟩

/-- Witness for C9 at a response without the bucket key. -/
theorem C9_missing_buckets_key_witness :
    S3Service.list_buckets noKeyS3Client = Except.ok { Buckets := [], Count := 0 } :=
  (@C9_missing_buckets_key noKeyS3Client { Buckets := none } rfl).1 rfl

/-- Claim C10: `describe_instance` raises its NotFound-kind error only when
the response's reservation list is empty; a response whose first reservation
exists but holds an empty instance list makes the unguarded `[0]` indexing
fail with the generic out-of-bounds error instead of the NotFound signal. -/
theorem C10_notfound_vs_indexing (client : String → Except PyError DescribeResponse)
    (instance_id : String) {resp : DescribeResponse}
    (h : client instance_id = Except.ok resp) :
    (∀ m, EC2Service.describe_instance client instance_id
        = Except.error (PyError.valueError m) → resp.Reservations = some [])
    ∧ (∀ r0 rest, resp.Reservations = some (r0 :: rest) → r0.Instances = some [] →
      EC2Service.describe_instance client instance_id = Except.error PyError.indexError) := by
  have hb : EC2Service.describe_instance client instance_id = describeBody instance_id resp := by
    unfold EC2Service.describe_instance
    simp [h, ok_bind]
  constructor
  · intro m hm
    rw [hb] at hm
    unfold describeBody at hm
    cases hR : resp.Reservations with
    | none => rw [hR] at hm; simp [req_none, error_bind] at hm
    | some rs =>
      rw [hR] at hm
      simp only [req_some, ok_bind] at hm
      cases rs with
      | nil => rfl
      | cons r0 rest =>
        simp only [List.isEmpty_cons, Bool.false_eq_true, if_false, idx0, ok_bind] at hm
        cases hI : r0.Instances with
        | none => rw [hI] at hm; simp [req_none, error_bind] at hm
        | some raw =>
          rw [hI] at hm
          simp only [req_some, ok_bind] at hm
          cases raw with
          | nil => simp [idx0, error_bind] at hm
          | cons i rest2 =>
            simp only [idx0, ok_bind] at hm
            exact absurd hm (toInstanceDetail_ne_valueError i m)
  · intro r0 rest h1 h2
    rw [hb]
    unfold describeBody
    simp [h1, req_some, ok_bind, idx0, h2, error_bind]

/-- Witness for C10 at a response with one reservation holding zero
instances. -/
theorem C10_notfound_vs_indexing_witness :
    EC2Service.describe_instance
      (fun _ => Except.ok { Reservations := some [{ Instances := some [] }] }) "i-1"
      = Except.error PyError.indexError :=
  (C10_notfound_vs_indexing
    (fun _ => Except.ok { Reservations := some [{ Instances := some [] }] }) "i-1" rfl).2
    { Instances := some [] } [] rfl rfl

end AwsMcp
